import Mathlib

/-!
Verification of the desitarget mock-target pipeline against its
natural-language specification.

The development shallowly embeds the relevant parts of
`py/desitarget/mock/mockmaker.py` and `py/desitarget/sv/sv_cuts.py`:

* pure numeric code becomes Lean functions over `ℚ` (or `ℝ`/`ℂ` where the
  source raises fluxes to fractional powers);
* `numpy.random.RandomState(seed)` is modelled as a function from the seed
  to a deterministic stream of standard-normal deviates, which is exactly
  its contract (same seed, same stream);
* the numeric square root `np.sqrt` is modelled as an explicit function
  argument `sqrtFn` (an external numeric primitive, like the RNG);
* fallible readers return `Except`, the "empty dictionary" sentinel of
  `readmock` becomes `Option.none`.
-/

namespace Desitarget

/-! ### Photometric bands (FLUX_G/R/Z/W1/W2 columns) -/

/-- The five photometric bands used throughout `mockmaker.py`. -/
inductive Band
  | G | R | Z | W1 | W2
  deriving DecidableEq, Repr

/-- The depth columns carried by the source-data dictionary:
`PSFDEPTH_*` and `GALDEPTH_*` (both stored as 5-sigma inverse variances,
see `SelectTargets._update_normfilter`/`readmock` in `mockmaker.py`). -/
structure DepthCols where
  psfdepth : Band → ℚ
  galdepth : Band → ℚ

/-- Depth column chosen by `SelectTargets.scatter_photometry`
(`mockmaker.py` lines 346-368): for g,r,z the prefix is `PSF` when
`psf=True` and `GAL` otherwise; for W1,W2 the code always reads
`PSFDEPTH_*`. -/
def depthForBand (psf : Bool) (d : DepthCols) : Band → ℚ
  | .W1 => d.psfdepth .W1
  | .W2 => d.psfdepth .W2
  | b => if psf then d.psfdepth b else d.galdepth b

/-- `SelectTargets.scatter_photometry` (`mockmaker.py` lines 338-371),
restricted to one object and one band.  `gauss b` is the standard-normal
deviate the seeded `RandomState` produces for this object in band `b`
(`rand.normal(scale=sigma)` equals `sigma` times a standard deviate), and
`sqrtFn` is the numeric square root.  Returns the noisy
`FLUX_*` value written into the targets table and the `FLUX_IVAR_*`
value:
`sigma = 1 / np.sqrt(data[depthkey]) / 5`,
`targets[fluxkey] = truth[fluxkey] + rand.normal(scale=sigma)`,
`targets[ivarkey] = 1 / sigma**2`. -/
def scatter_photometry (gauss : Band → ℚ) (sqrtFn : ℚ → ℚ) (psf : Bool)
    (depths : DepthCols) (truthFlux : Band → ℚ) (b : Band) : ℚ × ℚ :=
  let sigma : ℚ := 1 / sqrtFn (depthForBand psf depths b) / 5
  (truthFlux b + sigma * gauss b, 1 / sigma ^ 2)

/-- The photometry part of `SelectTargets.populate_targets_truth`
(`mockmaker.py` lines 801-808): scatter the photometry based on the
depth, then attenuate the observed (targets) photometry by the per-band
Galactic transmission `MW_TRANSMISSION_*`; the truth-table flux columns
are not touched.  Returns
(targets `FLUX_b`, targets `FLUX_IVAR_b`, truth `FLUX_b`). -/
def populate_targets_truth (gauss : Band → ℚ) (sqrtFn : ℚ → ℚ) (psf : Bool)
    (depths : DepthCols) (mwTransmission : Band → ℚ)
    (truthFlux : Band → ℚ) (b : Band) : ℚ × ℚ × ℚ :=
  let scat := scatter_photometry gauss sqrtFn psf depths truthFlux b
  (scat.1 * mwTransmission b, scat.2, truthFlux b)

/-! ### GMM morphology-count allocation (`SelectTargets.sample_GMM`) -/

/-- `np.round`: round half to even, as numpy does. -/
def npRound (q : ℚ) : ℤ :=
  let f : ℤ := ⌊q⌋
  let r : ℚ := q - (f : ℚ)
  if r < 1/2 then f
  else if 1/2 < r then f + 1
  else if f % 2 = 0 then f else f + 1

/-- `np.argmax`: index of the first occurrence of the maximum value
(0 for the empty list, which numpy would reject). -/
def argmaxIdx (l : List ℤ) : ℕ :=
  (List.range l.length).foldl
    (fun best i => if l.getD best 0 < l.getD i 0 then i else best) 0

/-- The rounding-residual correction of `SelectTargets.sample_GMM`
(`mockmaker.py` lines 492-496), applied to the rounded per-morphology
counts:
`dn = np.sum(nobj_morph) - nobj`;
`if dn > 0: nobj_morph[np.argmax(nobj_morph)] -= dn`;
`elif dn < 0: nobj_morph[np.argmax(nobj_morph)] += dn`. -/
def fix_counts (counts : List ℤ) (nobj : ℤ) : List ℤ :=
  let dn := counts.sum - nobj
  if 0 < dn then
    counts.set (argmaxIdx counts) (counts.getD (argmaxIdx counts) 0 - dn)
  else if dn < 0 then
    counts.set (argmaxIdx counts) (counts.getD (argmaxIdx counts) 0 + dn)
  else counts

/-- The per-morphology count allocation of `SelectTargets.sample_GMM`
(`mockmaker.py` lines 486-496).  `frac2d` is the magnitude-binned
morphological-fraction table, one row per morphology:
`norm = np.sum(frac2d_magbins, axis=1)`;
`frac1d_morph = norm / np.sum(norm)`;
`nobj_morph = np.round(frac1d_morph*nobj).astype(int)`;
then the residual fix of `fix_counts`. -/
def sample_GMM_counts (frac2d : List (List ℚ)) (nobj : ℕ) : List ℤ :=
  let norm := frac2d.map (fun row => row.sum)
  let total := norm.sum
  let frac1d := norm.map (fun x => x / total)
  let counts := frac1d.map (fun f => npRound (f * nobj))
  fix_counts counts nobj

/-! ### FRACDEV assignment (`SelectTargets.sample_GMM`) -/

/-- Start of the row block that morphology number `i` fills in the
`sample_GMM` output: `gthese = np.arange(nobj_morph[ii]) + np.sum(nobj_morph[:ii])`
(`mockmaker.py` line 521), so block `i` starts at the sum of the earlier
counts. -/
def morphBlockStart (counts : List ℤ) (i : ℕ) : ℤ :=
  (counts.take i).sum

/-- The FRACDEV assignment and clipping of `SelectTargets.sample_GMM`
(`mockmaker.py` lines 507-550, FRACDEV parts only).  The loop over
morphologies executes, for each morphology with a positive count,
`if mm == 'DEV': gmmout['FRACDEV'][:] = 1.0`
`elif mm == 'EXP': gmmout['FRACDEV'][:] = 0.0`
(note the full-column index `[:]`), and afterwards
`gmmout['FRACDEV'][gmmout['FRACDEV'] < 0.0] = 0.0`;
`gmmout['FRACDEV'][gmmout['FRACDEV'] > 1.0] = 1.0`. -/
def assign_fracdev (morph : List String) (counts : List ℤ) (nobj : ℕ) : List ℚ :=
  let step := fun (fracdev : List ℚ) (mc : String × ℤ) =>
    if 0 < mc.2 then
      if mc.1 = "DEV" then List.replicate nobj (1 : ℚ)
      else if mc.1 = "EXP" then List.replicate nobj (0 : ℚ)
      else fracdev
    else fracdev
  let out := (morph.zip counts).foldl step (List.replicate nobj (0 : ℚ))
  out.map (fun v => if v < 0 then 0 else if 1 < v then 1 else v)

/-! ### North/south photometric-system split -/

/-- `SelectTargets.is_south` (`mockmaker.py` lines 907-917): the south
photometric system is `dec <= 32.125` degrees. -/
def is_south (dec : ℚ) : Bool :=
  decide (dec ≤ 32.125)

/-- The `PHOTSYS` letter assigned by `SelectTargets.populate_targets_truth`
(`mockmaker.py` lines 755-760): `'S'` where `is_south`, `'N'` elsewhere. -/
def photsysOf (dec : ℚ) : String :=
  if is_south dec then "S" else "N"

/-- `_isonnorthphotsys` (`sv_cuts.py` lines 1833-1846): an object is on the
northern photometric system iff its `PHOTSYS` entry is `'N'`. -/
def isonnorthphotsys (photsys : String) : Bool :=
  photsys == "N"

/-- Modelled from the spec: `_prepare_optical_wise` is imported into
`sv_cuts.py` from `desitarget.cuts`, which is not part of this repository
snapshot.  Per the spec the two photometric-system flags it returns are
"mutually exclusive partitions", i.e. `photsys_south` is the complement of
`photsys_north` (`_isonnorthphotsys` applied to the `PHOTSYS` column). -/
def photsys_north_south (photsys : String) : Bool × Bool :=
  (isonnorthphotsys photsys, !isonnorthphotsys photsys)

/-- The per-class north/south combination of `apply_cuts`
(`sv_cuts.py` line 2039 and analogues):
`lrg = (lrg_north & photsys_north) | (lrg_south & photsys_south)`. -/
def combine_ns (cutNorth cutSouth photsysNorth photsysSouth : Bool) : Bool :=
  (cutNorth && photsysNorth) || (cutSouth && photsysSouth)

/-! ### `ReadGaussianField.readmock` footprint selection and weights -/

/-- The normalized source-record fields of `ReadGaussianField.readmock`
that the footprint/weight claims are about. -/
structure MockData where
  mockid : List ℕ
  healpix : List ℕ
  weight : List ℚ
  deriving DecidableEq, Repr

/-- `ReadGaussianField.readmock` (`mockmaker.py` lines 926-1020), the
pixel-selection and weight-assignment core.  The file I/O is abstracted:
`mockfileGiven` is whether a mockfile argument was supplied,
`fileExists` whether `os.path.isfile` succeeds, `allpix` the healpixel
of each row of the mock, `pixweight` the per-pixel completeness weight
map, `healpixels` the requested footprint.  Failures raise
(`Except.error`); zero selected objects returns the empty dictionary
(`Except.ok none`):
`fracarea = pixweight[allpix]`;
`cut = np.where(np.in1d(allpix, healpixels) * (fracarea > 0))[0]`;
`if nobj == 0: return dict()`;
`weight = 1 / fracarea[cut]`. -/
def readmock (mockfileGiven fileExists : Bool) (allpix : List ℕ)
    (pixweight : ℕ → ℚ) (healpixels : List ℕ) : Except Unit (Option MockData) :=
  if !mockfileGiven then .error ()
  else if !fileExists then .error ()
  else
    let mockid := List.range allpix.length
    let cut := mockid.filter fun i =>
      decide (allpix.getD i 0 ∈ healpixels) && decide (0 < pixweight (allpix.getD i 0))
    if cut.length = 0 then .ok none
    else
      .ok (some
        { mockid := cut
          healpix := cut.map fun i => allpix.getD i 0
          weight := cut.map fun i => 1 / pixweight (allpix.getD i 0) })

/-! ### `apply_cuts` (sv_cuts.py): bitmask accumulation and table handling -/

/-- The per-class boolean classifier results that `apply_cuts` combines
(`sv_cuts.py` lines 2025-2145), for one object. -/
structure ClassBits where
  lrg_north : Bool
  lrg_south : Bool
  lrg1pass_north : Bool
  lrg1pass_south : Bool
  lrg2pass_north : Bool
  lrg2pass_south : Bool
  elg_north : Bool
  elg_south : Bool
  qso_north : Bool
  qso_south : Bool
  std_faint : Bool
  std_bright : Bool
  bgs_bright_north : Bool
  bgs_bright_south : Bool
  bgs_faint_north : Bool
  bgs_faint_south : Bool
  mws_n : Bool
  mws_s : Bool
  mws_red_n : Bool
  mws_red_s : Bool
  mws_blue_n : Bool
  mws_blue_s : Bool
  mws_nearby : Bool
  mws_wd : Bool
  photsys_north : Bool
  photsys_south : Bool
  deriving DecidableEq, Repr

/-- The bit values of `desi_mask`, `bgs_mask` and `mws_mask` used by
`apply_cuts` (defined in `desitarget.targetmask`, external to the two
source modules; kept as parameters). -/
structure MaskBits where
  LRG_SOUTH : ℕ
  ELG_SOUTH : ℕ
  QSO_SOUTH : ℕ
  LRG_NORTH : ℕ
  ELG_NORTH : ℕ
  QSO_NORTH : ℕ
  LRG : ℕ
  ELG : ℕ
  QSO : ℕ
  LRG_1PASS_SOUTH : ℕ
  LRG_2PASS_SOUTH : ℕ
  LRG_1PASS_NORTH : ℕ
  LRG_2PASS_NORTH : ℕ
  LRG_1PASS : ℕ
  LRG_2PASS : ℕ
  STD_FAINT : ℕ
  STD_BRIGHT : ℕ
  BGS_BRIGHT_SOUTH : ℕ
  BGS_FAINT_SOUTH : ℕ
  BGS_BRIGHT_NORTH : ℕ
  BGS_FAINT_NORTH : ℕ
  BGS_BRIGHT : ℕ
  BGS_FAINT : ℕ
  MWS_MAIN : ℕ
  MWS_WD : ℕ
  MWS_NEARBY : ℕ
  MWS_MAIN_NORTH : ℕ
  MWS_MAIN_SOUTH : ℕ
  MWS_MAIN_BLUE : ℕ
  MWS_MAIN_BLUE_NORTH : ℕ
  MWS_MAIN_BLUE_SOUTH : ℕ
  MWS_MAIN_RED : ℕ
  MWS_MAIN_RED_NORTH : ℕ
  MWS_MAIN_RED_SOUTH : ℕ
  BGS_ANY : ℕ
  MWS_ANY : ℕ
  deriving DecidableEq, Repr

/-- numpy `boolean * mask`: the mask value where the boolean is set,
zero elsewhere (e.g. `lrg_south * desi_mask.LRG_SOUTH`). -/
def bmul (b : Bool) (m : ℕ) : ℕ :=
  if b then m else 0

/-- Python's `str.upper()` on a column name: uppercase each character. -/
def toUpperStr (s : String) : String :=
  ⟨s.data.map Char.toUpper⟩

/-- The uppercasing step of `apply_cuts` (`sv_cuts.py` lines 1978-1982):
for an astropy `Table`, every column whose name is not already uppercase
is renamed to its uppercase form, in place. -/
def upper_names (objects : List (String × ℕ)) : List (String × ℕ) :=
  objects.map fun c => (toUpperStr c.1, c.2)

/-- The `bgs_target` bitmask accumulation of `apply_cuts`
(`sv_cuts.py` lines 2179-2188), with the combined bits computed per
lines 2120-2121. -/
def build_bgs_target (c : ClassBits) (mb : MaskBits) : ℕ :=
  let bgs_bright := combine_ns c.bgs_bright_north c.bgs_bright_south c.photsys_north c.photsys_south
  let bgs_faint := combine_ns c.bgs_faint_north c.bgs_faint_south c.photsys_north c.photsys_south
  bmul c.bgs_bright_south mb.BGS_BRIGHT_SOUTH |||
  bmul c.bgs_faint_south mb.BGS_FAINT_SOUTH |||
  bmul c.bgs_bright_north mb.BGS_BRIGHT_NORTH |||
  bmul c.bgs_faint_north mb.BGS_FAINT_NORTH |||
  bmul bgs_bright mb.BGS_BRIGHT |||
  bmul bgs_faint mb.BGS_FAINT

/-- The `mws_target` bitmask accumulation of `apply_cuts`
(`sv_cuts.py` lines 2190-2205), with the combined bits computed per
lines 2143-2145. -/
def build_mws_target (c : ClassBits) (mb : MaskBits) : ℕ :=
  let mws := combine_ns c.mws_n c.mws_s c.photsys_north c.photsys_south
  let mws_blue := combine_ns c.mws_blue_n c.mws_blue_s c.photsys_north c.photsys_south
  let mws_red := combine_ns c.mws_red_n c.mws_red_s c.photsys_north c.photsys_south
  bmul mws mb.MWS_MAIN |||
  bmul c.mws_wd mb.MWS_WD |||
  bmul c.mws_nearby mb.MWS_NEARBY |||
  bmul c.mws_n mb.MWS_MAIN_NORTH |||
  bmul c.mws_s mb.MWS_MAIN_SOUTH |||
  bmul mws_blue mb.MWS_MAIN_BLUE |||
  bmul c.mws_blue_n mb.MWS_MAIN_BLUE_NORTH |||
  bmul c.mws_blue_s mb.MWS_MAIN_BLUE_SOUTH |||
  bmul mws_red mb.MWS_MAIN_RED |||
  bmul c.mws_red_n mb.MWS_MAIN_RED_NORTH |||
  bmul c.mws_red_s mb.MWS_MAIN_RED_SOUTH

/-- The `desi_target` bitmask accumulation of `apply_cuts`
(`sv_cuts.py` lines 2148-2176 and 2207-2209), with the combined
north/south bits computed per lines 2039-2041, 2053 and 2081; the last
two terms record whether any BGS or MWS bit is set. -/
def build_desi_target (c : ClassBits) (mb : MaskBits) (bgs_target mws_target : ℕ) : ℕ :=
  let lrg := combine_ns c.lrg_north c.lrg_south c.photsys_north c.photsys_south
  let lrg1pass := combine_ns c.lrg1pass_north c.lrg1pass_south c.photsys_north c.photsys_south
  let lrg2pass := combine_ns c.lrg2pass_north c.lrg2pass_south c.photsys_north c.photsys_south
  let elg := combine_ns c.elg_north c.elg_south c.photsys_north c.photsys_south
  let qso := combine_ns c.qso_north c.qso_south c.photsys_north c.photsys_south
  bmul c.lrg_south mb.LRG_SOUTH |||
  bmul c.elg_south mb.ELG_SOUTH |||
  bmul c.qso_south mb.QSO_SOUTH |||
  bmul c.lrg_north mb.LRG_NORTH |||
  bmul c.elg_north mb.ELG_NORTH |||
  bmul c.qso_north mb.QSO_NORTH |||
  bmul lrg mb.LRG |||
  bmul elg mb.ELG |||
  bmul qso mb.QSO |||
  bmul c.lrg1pass_south mb.LRG_1PASS_SOUTH |||
  bmul c.lrg2pass_south mb.LRG_2PASS_SOUTH |||
  bmul c.lrg1pass_north mb.LRG_1PASS_NORTH |||
  bmul c.lrg2pass_north mb.LRG_2PASS_NORTH |||
  bmul lrg1pass mb.LRG_1PASS |||
  bmul lrg2pass mb.LRG_2PASS |||
  bmul c.std_faint mb.STD_FAINT |||
  bmul c.std_bright mb.STD_BRIGHT |||
  bmul (decide (bgs_target ≠ 0)) mb.BGS_ANY |||
  bmul (decide (mws_target ≠ 0)) mb.MWS_ANY

/-- `apply_cuts` (`sv_cuts.py` lines 1926-2211), at the level the claims
address: the (possibly renaming) handling of the input objects table and
the pure accumulation of the three output bitmasks from the per-class
classifier results.  The classifiers themselves are the `ClassBits`
input; the first component is the objects table as it stands after the
call (capturing the in-place column renaming of lines 1978-1982). -/
def apply_cuts (objects : List (String × ℕ)) (c : ClassBits) (mb : MaskBits) :
    List (String × ℕ) × ℕ × ℕ × ℕ :=
  let objectsAfter := upper_names objects
  let bgs_target := build_bgs_target c mb
  let mws_target := build_mws_target c mb
  let desi_target := build_desi_target c mb bgs_target mws_target
  (objectsAfter, desi_target, bgs_target, mws_target)

/-- The list of individual OR-contributions to `desi_target`, in source
order; `build_desi_target` is their left-to-right bitwise-OR fold. -/
def desi_contribs (c : ClassBits) (mb : MaskBits) (bgs_target mws_target : ℕ) : List ℕ :=
  [bmul c.lrg_south mb.LRG_SOUTH,
   bmul c.elg_south mb.ELG_SOUTH,
   bmul c.qso_south mb.QSO_SOUTH,
   bmul c.lrg_north mb.LRG_NORTH,
   bmul c.elg_north mb.ELG_NORTH,
   bmul c.qso_north mb.QSO_NORTH,
   bmul (combine_ns c.lrg_north c.lrg_south c.photsys_north c.photsys_south) mb.LRG,
   bmul (combine_ns c.elg_north c.elg_south c.photsys_north c.photsys_south) mb.ELG,
   bmul (combine_ns c.qso_north c.qso_south c.photsys_north c.photsys_south) mb.QSO,
   bmul c.lrg1pass_south mb.LRG_1PASS_SOUTH,
   bmul c.lrg2pass_south mb.LRG_2PASS_SOUTH,
   bmul c.lrg1pass_north mb.LRG_1PASS_NORTH,
   bmul c.lrg2pass_north mb.LRG_2PASS_NORTH,
   bmul (combine_ns c.lrg1pass_north c.lrg1pass_south c.photsys_north c.photsys_south) mb.LRG_1PASS,
   bmul (combine_ns c.lrg2pass_north c.lrg2pass_south c.photsys_north c.photsys_south) mb.LRG_2PASS,
   bmul c.std_faint mb.STD_FAINT,
   bmul c.std_bright mb.STD_BRIGHT,
   bmul (decide (bgs_target ≠ 0)) mb.BGS_ANY,
   bmul (decide (mws_target ≠ 0)) mb.MWS_ANY]

/-- The list of individual OR-contributions to `bgs_target`. -/
def bgs_contribs (c : ClassBits) (mb : MaskBits) : List ℕ :=
  [bmul c.bgs_bright_south mb.BGS_BRIGHT_SOUTH,
   bmul c.bgs_faint_south mb.BGS_FAINT_SOUTH,
   bmul c.bgs_bright_north mb.BGS_BRIGHT_NORTH,
   bmul c.bgs_faint_north mb.BGS_FAINT_NORTH,
   bmul (combine_ns c.bgs_bright_north c.bgs_bright_south c.photsys_north c.photsys_south) mb.BGS_BRIGHT,
   bmul (combine_ns c.bgs_faint_north c.bgs_faint_south c.photsys_north c.photsys_south) mb.BGS_FAINT]

/-- The list of individual OR-contributions to `mws_target`. -/
def mws_contribs (c : ClassBits) (mb : MaskBits) : List ℕ :=
  [bmul (combine_ns c.mws_n c.mws_s c.photsys_north c.photsys_south) mb.MWS_MAIN,
   bmul c.mws_wd mb.MWS_WD,
   bmul c.mws_nearby mb.MWS_NEARBY,
   bmul c.mws_n mb.MWS_MAIN_NORTH,
   bmul c.mws_s mb.MWS_MAIN_SOUTH,
   bmul (combine_ns c.mws_blue_n c.mws_blue_s c.photsys_north c.photsys_south) mb.MWS_MAIN_BLUE,
   bmul c.mws_blue_n mb.MWS_MAIN_BLUE_NORTH,
   bmul c.mws_blue_s mb.MWS_MAIN_BLUE_SOUTH,
   bmul (combine_ns c.mws_red_n c.mws_red_s c.photsys_north c.photsys_south) mb.MWS_MAIN_RED,
   bmul c.mws_red_n mb.MWS_MAIN_RED_NORTH,
   bmul c.mws_red_s mb.MWS_MAIN_RED_SOUTH]

/-! ### Maker `select_targets` bitmask updates -/

/-- `LYAMaker.select_targets` (`mockmaker.py` lines 2654-2658), bit
update given the `apply_cuts` results `d`, `b`, `m`:
`targets['DESI_TARGET'] |= desi_target` etc. -/
def lyamaker_select_targets (desi bgs mws d b m : ℕ) : ℕ × ℕ × ℕ :=
  (desi ||| d, bgs ||| b, mws ||| m)

/-- `LRGMaker.select_targets` (`mockmaker.py` lines 2846-2850), the same
`|=` update. -/
def lrgmaker_select_targets (desi bgs mws d b m : ℕ) : ℕ × ℕ × ℕ :=
  (desi ||| d, bgs ||| b, mws ||| m)

/-- `MWS_MAINMaker.select_targets` (`mockmaker.py` lines 3608-3612):
`targets['DESI_TARGET'] |= targets['DESI_TARGET'] | desi_target` etc. -/
def mws_mainmaker_select_targets (desi bgs mws d b m : ℕ) : ℕ × ℕ × ℕ :=
  (desi ||| (desi ||| d), bgs ||| (bgs ||| b), mws ||| (mws ||| m))

/-- `SKYMaker.select_targets` (`mockmaker.py` lines 4405-4416):
`targets['DESI_TARGET'] |= self.desi_mask.mask('SKY')`. -/
def skymaker_select_targets (desi skyMask : ℕ) : ℕ :=
  desi ||| skyMask

/-! ### `isLRG_colors_south` (sv_cuts.py lines 168-227)

The fluxes are real numbers (nanomaggies); the source raises fluxes to
fractional powers through complex exponentiation with real-part
extraction, rendered here with `Complex.cpow`.  Each conjunct of the
source's `&=` chain is a named predicate so the claims can refer to the
individual cuts. -/

/-- `lrg &= (zflux > 10**(0.4*(22.5-20.4)))  # z<20.4`. -/
def lrg_zmagCut (zflux : ℝ) : Prop :=
  zflux > (10 : ℝ) ^ ((0.4 * (22.5 - 20.4) : ℝ))

/-- `lrg &= (zflux < 10**(0.4*(22.5-18)))  # z>18`. -/
def lrg_zmagBrightCut (zflux : ℝ) : Prop :=
  zflux < (10 : ℝ) ^ ((0.4 * (22.5 - 18) : ℝ))

/-- `lrg &= (zflux < 10**(0.4*2.5)*rflux)  # r-z<2.5`. -/
def lrg_rzUpperCut (rflux zflux : ℝ) : Prop :=
  zflux < (10 : ℝ) ^ ((0.4 * 2.5 : ℝ)) * rflux

/-- `lrg &= (zflux > 10**(0.4*0.8)*rflux)  # r-z>0.8`. -/
def lrg_rzCut (rflux zflux : ℝ) : Prop :=
  zflux > (10 : ℝ) ^ ((0.4 * 0.8 : ℝ)) * rflux

/-- The star-galaxy separation cut,
`lrg &= ((w1flux*rflux**complex(0.7)).real >
         ((zflux**complex(1.7))*10**(-0.4*0.6)).real)`. -/
def lrg_sgCut (rflux zflux w1flux : ℝ) : Prop :=
  ((w1flux : ℂ) * (rflux : ℂ) ^ (((0.7 : ℝ) : ℂ))).re >
    (((zflux : ℂ) ^ (((1.7 : ℝ) : ℂ))) * (((10 : ℝ) ^ ((-0.4 * 0.6 : ℝ)) : ℝ) : ℂ)).re

/-- `lrg &= (zflux**3 > 10**(0.4*(22.5+2.4-19.45))*rflux**2)`. -/
def lrg_slidingFaintCut (rflux zflux : ℝ) : Prop :=
  zflux ^ 3 > (10 : ℝ) ^ ((0.4 * (22.5 + 2.4 - 19.45) : ℝ)) * rflux ^ 2

/-- `lrg &= (zflux**3 < 10**(0.4*(22.5+2.4-17.4))*rflux**2)`. -/
def lrg_slidingBrightCut (rflux zflux : ℝ) : Prop :=
  zflux ^ 3 < (10 : ℝ) ^ ((0.4 * (22.5 + 2.4 - 17.4) : ℝ)) * rflux ^ 2

/-- `lrg &= np.logical_or((zflux > 10**(0.4*1.2)*rflux),
                          (ggood & (rflux > 10**(0.4*1.7)*gflux)))`. -/
def lrg_elbowCut (gflux rflux zflux : ℝ) (ggood : Prop) : Prop :=
  zflux > (10 : ℝ) ^ ((0.4 * 1.2 : ℝ)) * rflux ∨
    (ggood ∧ rflux > (10 : ℝ) ^ ((0.4 * 1.7 : ℝ)) * gflux)

/-- `isLRG_colors_south` (`sv_cuts.py` lines 168-227) for one object:
the conjunction of `primary` with the `&=` chain of flux and color
cuts.  `w2flux` is accepted but unused, as in the source. -/
def isLRG_colors_south (gflux rflux zflux w1flux w2flux : ℝ)
    (ggood primary : Prop) : Prop :=
  primary ∧
  lrg_zmagCut zflux ∧
  lrg_zmagBrightCut zflux ∧
  lrg_rzUpperCut rflux zflux ∧
  lrg_rzCut rflux zflux ∧
  lrg_sgCut rflux zflux w1flux ∧
  lrg_slidingFaintCut rflux zflux ∧
  lrg_slidingBrightCut rflux zflux ∧
  lrg_elbowCut gflux rflux zflux ggood

/-! ### Concrete classifier/mask values used for evaluation -/

/-- All classifier results `False` (the `~primary` default of
`apply_cuts` when a target class is not run). -/
def allFalseBits : ClassBits :=
  ⟨false, false, false, false, false, false, false, false, false, false,
   false, false, false, false, false, false, false, false, false, false,
   false, false, false, false, false, false⟩

/-- An all-zero mask assignment. -/
def zeroMasks : MaskBits :=
  ⟨0, 0, 0, 0, 0, 0, 0, 0, 0, 0, 0, 0, 0, 0, 0, 0, 0, 0,
   0, 0, 0, 0, 0, 0, 0, 0, 0, 0, 0, 0, 0, 0, 0, 0, 0, 0⟩

/-- A classifier assignment with `lrg_south`, `bgs_bright_south` and
`mws_wd` selected (and the object on the southern photometric system). -/
def someTrueBits : ClassBits :=
  ⟨false, true, false, false, false, false, false, false, false, false,
   false, false, false, true, false, false, false, false, false, false,
   false, false, false, true, false, true⟩

/-- A mask assignment with distinct single bits for `LRG_SOUTH`,
`BGS_BRIGHT_SOUTH` and `MWS_WD`. -/
def someMasks : MaskBits :=
  ⟨1, 0, 0, 0, 0, 0, 0, 0, 0, 0, 0, 0, 0, 0, 0, 0, 0, 2,
   0, 0, 0, 0, 0, 0, 4, 0, 0, 0, 0, 0, 0, 0, 0, 0, 0, 0⟩

/-! ## Theorems -/

/-- Claim C1: for every fixed integer seed and identical inputs (same
depth columns, same noiseless truth fluxes, same psf flag), two calls of
`SelectTargets.scatter_photometry` produce bit-identical noisy `FLUX_*`
and `FLUX_IVAR_*` values.  `randomState` is the (deterministic) map from
the seed to the standard-normal deviate stream, which is the contract of
`np.random.RandomState(seed)`: the function constructs a fresh generator
from the seed on every call (`mockmaker.py` lines 338-340), so the
output depends on nothing but the arguments shown here. -/
theorem scatter_photometry_deterministic
    (randomState : ℤ → Band → ℚ) (sqrtFn : ℚ → ℚ)
    (seed₁ seed₂ : ℤ) (psf₁ psf₂ : Bool) (depths₁ depths₂ : DepthCols)
    (truthFlux₁ truthFlux₂ : Band → ℚ)
    (hseed : seed₁ = seed₂) (hpsf : psf₁ = psf₂) (hdepths : depths₁ = depths₂)
    (htruth : truthFlux₁ = truthFlux₂) (b : Band) :
    scatter_photometry (randomState seed₁) sqrtFn psf₁ depths₁ truthFlux₁ b =
      scatter_photometry (randomState seed₂) sqrtFn psf₂ depths₂ truthFlux₂ b := by
  subst hseed hpsf hdepths htruth
  rfl

/-- Claim C1 witness: two calls with seed 3 on a concrete source
dictionary agree in band G. -/
theorem scatter_photometry_deterministic_witness :
    scatter_photometry ((fun s _ => (s : ℚ)) (3 : ℤ)) (fun q => q) true
        ⟨fun _ => 4, fun _ => 9⟩ (fun _ => 2) .G =
      scatter_photometry ((fun s _ => (s : ℚ)) (3 : ℤ)) (fun q => q) true
        ⟨fun _ => 4, fun _ => 9⟩ (fun _ => 2) .G :=
  scatter_photometry_deterministic (fun s _ => (s : ℚ)) (fun q => q) 3 3 true true
    ⟨fun _ => 4, fun _ => 9⟩ ⟨fun _ => 4, fun _ => 9⟩ (fun _ => 2) (fun _ => 2)
    rfl rfl rfl rfl .G

/-- Claim C2 (code bug): the rounding-residual correction of
`SelectTargets.sample_GMM` does not make the counts sum to `nobj`.  With
per-morphology population fractions 0.4, 0.3, 0.3 and `nobj = 1`, every
rounded count is zero, so `dn = -1 < 0`; the `dn < 0` branch then *adds*
the negative `dn` to the largest count instead of subtracting it,
yielding counts `[-1, 0, 0]` whose sum is `-1`, not `1` (the code's own
comment says the correction "accounts for rounding"). -/
theorem sample_GMM_counts_code_bug :
    sample_GMM_counts [[2/5], [3/10], [3/10]] 1 = [-1, 0, 0] ∧
      (sample_GMM_counts [[2/5], [3/10], [3/10]] 1).sum = -1 ∧
      (sample_GMM_counts [[2/5], [3/10], [3/10]] 1).sum ≠ 1 := by
  have h : sample_GMM_counts [[2/5], [3/10], [3/10]] 1 = [-1, 0, 0] := by
    have h1 : npRound (2/5 : ℚ) = 0 := by
      simp only [npRound]; norm_num
    have h2 : npRound (3/10 : ℚ) = 0 := by
      simp only [npRound]; norm_num
    simp only [sample_GMM_counts, List.map, List.sum_cons, List.sum_nil]
    norm_num [h1, h2]
    simp only [fix_counts, argmaxIdx]
    norm_num [List.range_succ]
  refine ⟨h, ?_, ?_⟩ <;> rw [h] <;> decide

/-- Claim C3 (code bug): in `SelectTargets.sample_GMM` the assignments
`gmmout['FRACDEV'][:] = 1.0` (DEV) and `gmmout['FRACDEV'][:] = 0.0`
(EXP) write the *entire* column, not the block of rows drawn from that
morphology.  With morphologies `[EXP, DEV]` (the order produced by
`read_GMM`) and one draw each, the EXP block is row 0
(`morphBlockStart = 0`), yet after the loop the whole column is 1.0
because the later DEV iteration overwrote it; the claim (and spec)
require FRACDEV exactly 0.0 on the EXP row.  The [0,1] clipping does
hold, but the per-morphology values do not. -/
theorem assign_fracdev_code_bug :
    assign_fracdev ["EXP", "DEV"] [1, 1] 2 = [1, 1] ∧
      morphBlockStart [1, 1] 0 = 0 ∧
      (assign_fracdev ["EXP", "DEV"] [1, 1] 2).getD 0 0 = 1 := by
  have h : assign_fracdev ["EXP", "DEV"] [1, 1] 2 = [1, 1] := by
    simp only [assign_fracdev, List.zip, List.zipWith, List.foldl, List.replicate,
      List.map]
    norm_num
  refine ⟨h, by decide, ?_⟩
  rw [h]
  rfl

/-- Claim C4: for each band, `populate_targets_truth` outputs a targets
flux equal to (noiseless truth flux plus a Gaussian deviate of standard
deviation `sigma = 1/np.sqrt(depth)/5`) multiplied by the per-band
Galactic transmission, a flux inverse variance equal to `1/sigma^2`
(which is `25 * depth` when `sqrtFn` returns a genuine square root), and
leaves the truth flux unattenuated.  The depth column is `GALDEPTH` for
g,r,z when `psf = false` and `PSFDEPTH` for W1,W2 always. -/
theorem populate_targets_truth_photometry
    (gauss : Band → ℚ) (sqrtFn : ℚ → ℚ) (psf : Bool) (depths : DepthCols)
    (mwTransmission truthFlux : Band → ℚ) (b : Band) :
    (populate_targets_truth gauss sqrtFn psf depths mwTransmission truthFlux b).1 =
      (truthFlux b + (1 / sqrtFn (depthForBand psf depths b) / 5) * gauss b) *
        mwTransmission b ∧
    (populate_targets_truth gauss sqrtFn psf depths mwTransmission truthFlux b).2.1 =
      1 / (1 / sqrtFn (depthForBand psf depths b) / 5) ^ 2 ∧
    (populate_targets_truth gauss sqrtFn psf depths mwTransmission truthFlux b).2.2 =
      truthFlux b ∧
    (psf = false → b = .G ∨ b = .R ∨ b = .Z →
      depthForBand psf depths b = depths.galdepth b) ∧
    (b = .W1 ∨ b = .W2 → depthForBand psf depths b = depths.psfdepth b) ∧
    (sqrtFn (depthForBand psf depths b) ≠ 0 →
      sqrtFn (depthForBand psf depths b) ^ 2 = depthForBand psf depths b →
      (populate_targets_truth gauss sqrtFn psf depths mwTransmission truthFlux b).2.1 =
        25 * depthForBand psf depths b) := by
  refine ⟨rfl, rfl, rfl, ?_, ?_, ?_⟩
  · rintro rfl (rfl | rfl | rfl) <;> rfl
  · rintro (rfl | rfl) <;> rfl
  · intro hne hsq
    show 1 / (1 / sqrtFn (depthForBand psf depths b) / 5) ^ 2 =
      25 * depthForBand psf depths b
    conv_rhs => rw [← hsq]
    field_simp
    ring

/-- Claim C4 witness: with `psf = false`, band G, `GALDEPTH_G = 4` and a
square-root primitive returning 2, the output inverse variance is
`25 * 4 = 100` and the targets flux is the attenuated noisy flux. -/
theorem populate_targets_truth_photometry_witness :
    (populate_targets_truth (fun _ => 1) (fun _ => 2) false
        ⟨fun _ => 9, fun _ => 4⟩ (fun _ => 1/2) (fun _ => 3) .G).2.1 = 25 * 4 ∧
    (populate_targets_truth (fun _ => 1) (fun _ => 2) false
        ⟨fun _ => 9, fun _ => 4⟩ (fun _ => 1/2) (fun _ => 3) .G).1 =
      (3 + (1 / 2 / 5) * 1) * (1/2) ∧
    depthForBand false ⟨fun _ => 9, fun _ => 4⟩ Band.G = 4 := by
  have h := populate_targets_truth_photometry (fun _ => 1) (fun _ => 2) false
    ⟨fun _ => 9, fun _ => 4⟩ (fun _ => 1/2) (fun _ => 3) .G
  have hdepth : depthForBand false ⟨fun _ => 9, fun _ => 4⟩ Band.G = 4 :=
    h.2.2.2.1 rfl (Or.inl rfl)
  refine ⟨?_, ?_, hdepth⟩
  · have := h.2.2.2.2.2 (by norm_num) (by rw [hdepth]; norm_num)
    rw [this, hdepth]
  · rw [h.1]

/-- Claim C5: the combined per-class selection bit of `apply_cuts` is
`(north_cut AND photsys_north) OR (south_cut AND photsys_south)`, where
the two system flags (derived from the `PHOTSYS` letter that
`populate_targets_truth` assigns from `SelectTargets.is_south`) are
mutually exclusive and exhaustive, the object is on the south system iff
its declination is at most 32.125 degrees, and consequently exactly the
matching one of the two per-system cut results contributes. -/
theorem north_south_combination (dec : ℚ) (cutNorth cutSouth : Bool) :
    (combine_ns cutNorth cutSouth (photsys_north_south (photsysOf dec)).1
        (photsys_north_south (photsysOf dec)).2 =
      if is_south dec then cutSouth else cutNorth) ∧
    ((photsys_north_south (photsysOf dec)).1 =
      !(photsys_north_south (photsysOf dec)).2) ∧
    ((photsys_north_south (photsysOf dec)).2 = true ↔ dec ≤ 32.125) := by
  unfold combine_ns photsys_north_south photsysOf isonnorthphotsys is_south
  by_cases h : dec ≤ 32.125 <;> cases cutNorth <;> cases cutSouth <;> simp [h]

/-- Claim C6: when the requested healpixels meet no positive-weight cell
of the mock, `ReadGaussianField.readmock` on an existing mock file
returns the explicit empty dictionary (`Option.none`), not an error. -/
theorem readmock_empty_selection (allpix : List ℕ) (pixweight : ℕ → ℚ)
    (healpixels : List ℕ)
    (hempty : (List.range allpix.length).filter (fun i =>
        decide (allpix.getD i 0 ∈ healpixels) &&
          decide (0 < pixweight (allpix.getD i 0))) = []) :
    readmock true true allpix pixweight healpixels = .ok none := by
  unfold readmock
  simp only [Bool.not_true, Bool.false_eq_true, if_false, hempty]
  rfl

/-- Claim C6 witness: a two-row mock whose first pixel has zero
completeness weight and whose second pixel is outside the requested
footprint selects nothing and yields the empty dictionary. -/
theorem readmock_empty_selection_witness :
    readmock true true [3, 5] (fun p => if p = 3 then 0 else 1) [3] = .ok none :=
  readmock_empty_selection [3, 5] (fun p => if p = 3 then 0 else 1) [3] (by decide)

/-- Claim C7: every object kept by `ReadGaussianField.readmock` is
assigned the weight `1 / fracarea` of its healpixel, and only objects
whose pixel weight is strictly positive survive the cut, so the
division never sees a zero denominator. -/
theorem readmock_weight_inverse (mockfileGiven fileExists : Bool)
    (allpix : List ℕ) (pixweight : ℕ → ℚ) (healpixels : List ℕ) (d : MockData)
    (h : readmock mockfileGiven fileExists allpix pixweight healpixels =
      .ok (some d)) :
    d.weight = d.healpix.map (fun p => 1 / pixweight p) ∧
    ∀ p ∈ d.healpix, 0 < pixweight p := by
  unfold readmock at h
  cases mockfileGiven with
  | false => simp at h
  | true =>
    cases fileExists with
    | false => simp at h
    | true =>
      simp only [Bool.not_true, Bool.false_eq_true, if_false] at h
      split at h
      · exact absurd h (by simp)
      · rw [Except.ok.injEq, Option.some.injEq] at h
        subst h
        constructor
        · simp [List.map_map, Function.comp]
        · intro p hp
          rcases List.mem_map.mp hp with ⟨i, hi, rfl⟩
          have hmem := (List.mem_filter.mp hi).2
          rw [Bool.and_eq_true] at hmem
          exact of_decide_eq_true hmem.2

/-- Claim C7 witness: a two-row mock over pixels 3 and 5 with
completeness weights 1/2 and 1 gets per-object weights 2 and 1, the
exact inverses, and both pixels have positive weight. -/
theorem readmock_weight_inverse_witness :
    (⟨[0, 1], [3, 5], [2, 1]⟩ : MockData).weight =
      (⟨[0, 1], [3, 5], [2, 1]⟩ : MockData).healpix.map
        (fun p => 1 / (fun q => if q = 3 then (1/2 : ℚ) else 1) p) ∧
    ∀ p ∈ (⟨[0, 1], [3, 5], [2, 1]⟩ : MockData).healpix,
      0 < (fun q => if q = 3 then (1/2 : ℚ) else 1) p := by
  refine readmock_weight_inverse true true [3, 5]
    (fun q => if q = 3 then (1/2 : ℚ) else 1) [3, 5] ⟨[0, 1], [3, 5], [2, 1]⟩ ?_
  unfold readmock
  norm_num [List.range_succ, List.filter]

/-- Helper: renaming every column of a table to uppercase is the
identity when all names are already uppercase. -/
theorem upper_names_eq_self (objects : List (String × ℕ))
    (h : ∀ p ∈ objects, toUpperStr (Prod.fst p) = p.1) :
    upper_names objects = objects := by
  unfold upper_names
  induction objects with
  | nil => rfl
  | cons hd tl ih =>
    have hhd := h hd (List.mem_cons_self hd tl)
    simp only [List.map_cons, List.cons.injEq]
    exact ⟨by rw [hhd], ih fun p hp => h p (List.mem_cons_of_mem hd hp)⟩

/-- Claim C9 counterexample: `apply_cuts` does not leave its input
objects table unchanged.  On a table with the lowercase column name
`"flux_g"` the documented in-place renaming (the `Bugs:` section of
`apply_cuts`'s own docstring) rewrites the name to uppercase, so the
table after the call differs from the input. -/
theorem apply_cuts_mutates_lowercase :
    (apply_cuts [("flux_g", 7)] allFalseBits zeroMasks).1 ≠ [("flux_g", 7)] := by
  decide

/-- Claim C9 (amended): `apply_cuts` is a pure function of its inputs
returning three bitmask integers accumulated by bitwise-OR over the
per-class classifier results, and it leaves the input objects table
unchanged *provided all its column names are already uppercase* (a
lowercase name is renamed in place, as the function's docstring
documents).  Every bit contributed by any per-class result is set in
the corresponding returned mask. -/
theorem apply_cuts_pure_uppercase (objects : List (String × ℕ))
    (c : ClassBits) (mb : MaskBits)
    (h : ∀ p ∈ objects, toUpperStr (Prod.fst p) = p.1) :
    (apply_cuts objects c mb).1 = objects ∧
    (∀ x ∈ desi_contribs c mb (build_bgs_target c mb) (build_mws_target c mb),
      ∀ i, x.testBit i = true → (apply_cuts objects c mb).2.1.testBit i = true) ∧
    (∀ x ∈ bgs_contribs c mb,
      ∀ i, x.testBit i = true → (apply_cuts objects c mb).2.2.1.testBit i = true) ∧
    (∀ x ∈ mws_contribs c mb,
      ∀ i, x.testBit i = true → (apply_cuts objects c mb).2.2.2.testBit i = true) := by
  refine ⟨upper_names_eq_self objects h, ?_, ?_, ?_⟩
  · intro x hx i hbit
    show (build_desi_target c mb (build_bgs_target c mb)
      (build_mws_target c mb)).testBit i = true
    simp only [desi_contribs, List.mem_cons, List.not_mem_nil, or_false] at hx
    rcases hx with rfl | rfl | rfl | rfl | rfl | rfl | rfl | rfl | rfl | rfl |
      rfl | rfl | rfl | rfl | rfl | rfl | rfl | rfl | rfl <;>
      simp only [build_desi_target, Nat.testBit_or, hbit, Bool.or_true,
        Bool.true_or]
  · intro x hx i hbit
    show (build_bgs_target c mb).testBit i = true
    simp only [bgs_contribs, List.mem_cons, List.not_mem_nil, or_false] at hx
    rcases hx with rfl | rfl | rfl | rfl | rfl | rfl <;>
      simp only [build_bgs_target, Nat.testBit_or, hbit, Bool.or_true,
        Bool.true_or]
  · intro x hx i hbit
    show (build_mws_target c mb).testBit i = true
    simp only [mws_contribs, List.mem_cons, List.not_mem_nil, or_false] at hx
    rcases hx with rfl | rfl | rfl | rfl | rfl | rfl | rfl | rfl | rfl | rfl | rfl <;>
      simp only [build_mws_target, Nat.testBit_or, hbit, Bool.or_true,
        Bool.true_or]

/-- Claim C9 witness: on an uppercase-named table with the concrete
classifier results of `someTrueBits` and masks of `someMasks`, the
table is unchanged and the `LRG_SOUTH`, `BGS_BRIGHT_SOUTH` and `MWS_WD`
bits appear in the returned masks. -/
theorem apply_cuts_pure_uppercase_witness :
    (apply_cuts [("RA", 1)] someTrueBits someMasks).1 = [("RA", 1)] ∧
    (apply_cuts [("RA", 1)] someTrueBits someMasks).2.1.testBit 0 = true ∧
    (apply_cuts [("RA", 1)] someTrueBits someMasks).2.2.1.testBit 1 = true ∧
    (apply_cuts [("RA", 1)] someTrueBits someMasks).2.2.2.testBit 2 = true := by
  have h := apply_cuts_pure_uppercase [("RA", 1)] someTrueBits someMasks
    (by decide)
  exact ⟨h.1,
    h.2.1 1 (by decide) 0 (by decide),
    h.2.2.1 2 (by decide) 1 (by decide),
    h.2.2.2 4 (by decide) 2 (by decide)⟩

/-- Claim C10: the four Maker `select_targets` updates only ever combine
new classification results into the `DESI_TARGET`, `BGS_TARGET` and
`MWS_TARGET` columns with bitwise-OR (`|=`), so any bit set before the
call is still set after it, for `LYAMaker`, `LRGMaker`,
`MWS_MAINMaker` (whose update ORs the old value in twice) and
`SKYMaker`. -/
theorem makers_select_targets_monotone
    (desi bgs mws d b m skyMask i : ℕ)
    (hdesi : desi.testBit i = true) (hbgs : bgs.testBit i = true)
    (hmws : mws.testBit i = true) :
    ((lyamaker_select_targets desi bgs mws d b m).1.testBit i = true ∧
     (lyamaker_select_targets desi bgs mws d b m).2.1.testBit i = true ∧
     (lyamaker_select_targets desi bgs mws d b m).2.2.testBit i = true) ∧
    ((lrgmaker_select_targets desi bgs mws d b m).1.testBit i = true ∧
     (lrgmaker_select_targets desi bgs mws d b m).2.1.testBit i = true ∧
     (lrgmaker_select_targets desi bgs mws d b m).2.2.testBit i = true) ∧
    ((mws_mainmaker_select_targets desi bgs mws d b m).1.testBit i = true ∧
     (mws_mainmaker_select_targets desi bgs mws d b m).2.1.testBit i = true ∧
     (mws_mainmaker_select_targets desi bgs mws d b m).2.2.testBit i = true) ∧
    (skymaker_select_targets desi skyMask).testBit i = true := by
  simp [lyamaker_select_targets, lrgmaker_select_targets,
    mws_mainmaker_select_targets, skymaker_select_targets,
    Nat.testBit_or, hdesi, hbgs, hmws]

/-- Claim C10 witness: with prior masks 5 (bits 0 and 2 set), new
results 2 and a SKY mask of 8, bit 0 survives every update. -/
theorem makers_select_targets_monotone_witness :
    ((lyamaker_select_targets 5 5 5 2 2 2).1.testBit 0 = true ∧
     (lyamaker_select_targets 5 5 5 2 2 2).2.1.testBit 0 = true ∧
     (lyamaker_select_targets 5 5 5 2 2 2).2.2.testBit 0 = true) ∧
    ((lrgmaker_select_targets 5 5 5 2 2 2).1.testBit 0 = true ∧
     (lrgmaker_select_targets 5 5 5 2 2 2).2.1.testBit 0 = true ∧
     (lrgmaker_select_targets 5 5 5 2 2 2).2.2.testBit 0 = true) ∧
    ((mws_mainmaker_select_targets 5 5 5 2 2 2).1.testBit 0 = true ∧
     (mws_mainmaker_select_targets 5 5 5 2 2 2).2.1.testBit 0 = true ∧
     (mws_mainmaker_select_targets 5 5 5 2 2 2).2.2.testBit 0 = true) ∧
    (skymaker_select_targets 5 8).testBit 0 = true :=
  makers_select_targets_monotone 5 5 5 2 2 2 8 0 (by decide) (by decide) (by decide)

/-! ### Rational-exponent comparison helpers

The LRG cuts compare fluxes against powers of 10 with rational
exponents; these lemmas reduce such comparisons to natural-number power
comparisons that `norm_num` can settle. -/

/-- Raising `b ^ (m/n)` to the `n`-th power gives `b ^ m`. -/
theorem pow_rpow_nat_div (b : ℝ) (hb : 0 ≤ b) (m n : ℕ) (hn : (n : ℝ) ≠ 0) :
    (b ^ ((m : ℝ) / (n : ℝ))) ^ n = b ^ m := by
  rw [← Real.rpow_natCast (b ^ ((m : ℝ) / (n : ℝ))) n, ← Real.rpow_mul hb,
    div_mul_cancel₀ _ hn, Real.rpow_natCast]

/-- `b ^ (m/n) < c` iff `b ^ m < c ^ n`, for positive bases. -/
theorem rpow_nat_div_lt_iff {b c : ℝ} (hb : 0 < b) (hc : 0 < c) (m n : ℕ)
    (hn : n ≠ 0) : b ^ ((m : ℝ) / (n : ℝ)) < c ↔ b ^ m < c ^ n := by
  rw [← pow_lt_pow_iff_left₀ (Real.rpow_nonneg hb.le _) hc.le hn,
    pow_rpow_nat_div b hb.le m n (by exact_mod_cast hn)]

/-- `c < b ^ (m/n)` iff `c ^ n < b ^ m`, for positive bases. -/
theorem lt_rpow_nat_div_iff {b c : ℝ} (hb : 0 < b) (hc : 0 < c) (m n : ℕ)
    (hn : n ≠ 0) : c < b ^ ((m : ℝ) / (n : ℝ)) ↔ c ^ n < b ^ m := by
  rw [← pow_lt_pow_iff_left₀ hc.le (Real.rpow_nonneg hb.le _) hn,
    pow_rpow_nat_div b hb.le m n (by exact_mod_cast hn)]

/-- `c ≤ b ^ (m/n)` iff `c ^ n ≤ b ^ m`, for positive bases. -/
theorem le_rpow_nat_div_iff {b c : ℝ} (hb : 0 < b) (hc : 0 < c) (m n : ℕ)
    (hn : n ≠ 0) : c ≤ b ^ ((m : ℝ) / (n : ℝ)) ↔ c ^ n ≤ b ^ m := by
  rw [← pow_le_pow_iff_left₀ hc.le (Real.rpow_nonneg hb.le _) hn,
    pow_rpow_nat_div b hb.le m n (by exact_mod_cast hn)]

/-- `b ^ (m/n) < c ^ (p/n)` iff `b ^ m < c ^ p`, for positive bases. -/
theorem rpow_nat_div_lt_rpow_nat_div_iff {b c : ℝ} (hb : 0 < b) (hc : 0 < c)
    (m p n : ℕ) (hn : n ≠ 0) :
    b ^ ((m : ℝ) / (n : ℝ)) < c ^ ((p : ℝ) / (n : ℝ)) ↔ b ^ m < c ^ p := by
  rw [← pow_lt_pow_iff_left₀ (Real.rpow_nonneg hb.le _)
      (Real.rpow_nonneg hc.le _) hn,
    pow_rpow_nat_div b hb.le m n (by exact_mod_cast hn),
    pow_rpow_nat_div c hc.le p n (by exact_mod_cast hn)]

/-- Helper: the z-magnitude cut holds at `zflux = 120`
(`10^0.84 ≈ 6.9 < 120`). -/
theorem lrg_zmagCut_120 : lrg_zmagCut 120 := by
  unfold lrg_zmagCut
  rw [show (0.4 * (22.5 - 20.4) : ℝ) = ((21:ℕ):ℝ)/((25:ℕ):ℝ) by norm_num,
    gt_iff_lt, rpow_nat_div_lt_iff (by norm_num) (by norm_num) 21 25 (by norm_num)]
  norm_num

/-- Helper: the r-z > 0.8 colour cut fails at `rflux = 100, zflux = 120`:
that flux ratio corresponds to r-z ≈ 0.20, and indeed
`10^0.32 * 100 ≈ 209 > 120`. -/
theorem not_lrg_rzCut_100_120 : ¬ lrg_rzCut 100 120 := by
  unfold lrg_rzCut
  rw [show (0.4 * 0.8 : ℝ) = ((8:ℕ):ℝ)/((25:ℕ):ℝ) by norm_num, gt_iff_lt,
    not_lt]
  have h : (6/5 : ℝ) ≤ (10 : ℝ) ^ (((8:ℕ):ℝ)/((25:ℕ):ℝ)) := by
    rw [le_rpow_nat_div_iff (by norm_num) (by norm_num) 8 25 (by norm_num)]
    norm_num
  nlinarith [h]

/-- Helper: a concrete southern LRG: `g = 0`, `r = 10`, `z = 40`,
`w1 = 100` nanomaggies passes every cut of `isLRG_colors_south`. -/
theorem lrg_example_holds : isLRG_colors_south 0 10 40 100 10 True True := by
  refine ⟨trivial, ?_, ?_, ?_, ?_, ?_, ?_, ?_, ?_⟩
  · unfold lrg_zmagCut
    rw [show (0.4 * (22.5 - 20.4) : ℝ) = ((21:ℕ):ℝ)/((25:ℕ):ℝ) by norm_num,
      gt_iff_lt, rpow_nat_div_lt_iff (by norm_num) (by norm_num) 21 25 (by norm_num)]
    norm_num
  · unfold lrg_zmagBrightCut
    rw [show (0.4 * (22.5 - 18) : ℝ) = ((9:ℕ):ℝ)/((5:ℕ):ℝ) by norm_num,
      lt_rpow_nat_div_iff (by norm_num) (by norm_num) 9 5 (by norm_num)]
    norm_num
  · unfold lrg_rzUpperCut
    rw [show (0.4 * 2.5 : ℝ) = (1 : ℝ) by norm_num, Real.rpow_one]
    norm_num
  · unfold lrg_rzCut
    have h : (10 : ℝ) ^ (((8:ℕ):ℝ)/((25:ℕ):ℝ)) < 4 := by
      rw [rpow_nat_div_lt_iff (by norm_num) (by norm_num) 8 25 (by norm_num)]
      norm_num
    rw [show (0.4 * 0.8 : ℝ) = ((8:ℕ):ℝ)/((25:ℕ):ℝ) by norm_num]
    nlinarith [h]
  · unfold lrg_sgCut
    rw [← Complex.ofReal_cpow (by norm_num : (0:ℝ) ≤ 10),
      ← Complex.ofReal_cpow (by norm_num : (0:ℝ) ≤ 40),
      ← Complex.ofReal_mul, ← Complex.ofReal_mul,
      Complex.ofReal_re, Complex.ofReal_re]
    rw [gt_iff_lt, show (-0.4 * 0.6 : ℝ) = -(((6:ℕ):ℝ)/((25:ℕ):ℝ)) by norm_num,
      Real.rpow_neg (by norm_num : (0:ℝ) ≤ 10)]
    rw [mul_inv_lt_iff₀ (Real.rpow_pos_of_pos (by norm_num) _)]
    have hcomb : (100 : ℝ) * (10 : ℝ) ^ ((0.7 : ℝ)) *
        (10 : ℝ) ^ (((6:ℕ):ℝ)/((25:ℕ):ℝ)) =
        (10 : ℝ) ^ (((147:ℕ):ℝ)/((50:ℕ):ℝ)) := by
      rw [mul_assoc, ← Real.rpow_add (by norm_num : (0:ℝ) < 10)]
      rw [show ((0.7 : ℝ) + ((6:ℕ):ℝ)/((25:ℕ):ℝ)) = ((47:ℕ):ℝ)/((50:ℕ):ℝ) by
        norm_num]
      rw [show (100 : ℝ) = (10 : ℝ) ^ ((2:ℕ):ℝ) by rw [Real.rpow_natCast]; norm_num]
      rw [← Real.rpow_add (by norm_num : (0:ℝ) < 10)]
      norm_num
    rw [hcomb, show (1.7 : ℝ) = ((85:ℕ):ℝ)/((50:ℕ):ℝ) by norm_num,
      rpow_nat_div_lt_rpow_nat_div_iff (by norm_num) (by norm_num) 85 147 50
        (by norm_num)]
    norm_num
  · unfold lrg_slidingFaintCut
    have h : (10 : ℝ) ^ (((109:ℕ):ℝ)/((50:ℕ):ℝ)) < 640 := by
      rw [rpow_nat_div_lt_iff (by norm_num) (by norm_num) 109 50 (by norm_num)]
      norm_num
    rw [show (0.4 * (22.5 + 2.4 - 19.45) : ℝ) = ((109:ℕ):ℝ)/((50:ℕ):ℝ) by norm_num]
    nlinarith [h]
  · unfold lrg_slidingBrightCut
    rw [show (0.4 * (22.5 + 2.4 - 17.4) : ℝ) = ((3:ℕ):ℝ) by norm_num,
      Real.rpow_natCast]
    norm_num
  · unfold lrg_elbowCut
    left
    have h : (10 : ℝ) ^ (((12:ℕ):ℝ)/((25:ℕ):ℝ)) < 4 := by
      rw [rpow_nat_div_lt_iff (by norm_num) (by norm_num) 12 25 (by norm_num)]
      norm_num
    rw [show (0.4 * 1.2 : ℝ) = ((12:ℕ):ℝ)/((25:ℕ):ℝ) by norm_num]
    nlinarith [h]

/-- Claim C8 counterexample: at the claim's concrete fluxes
`g = 0, r = 100, z = 120, w1 = 50, w2 = 10` nanomaggies it is *not* the
case that both listed cuts are satisfied: the z-magnitude bound holds
but the r-z > 0.8 colour bound fails (`10^0.32 * 100 ≈ 209 > 120`, i.e.
r-z ≈ 0.2). -/
theorem lrg_scenario_counterexample :
    ¬ (lrg_zmagCut 120 ∧ lrg_rzCut 100 120) := fun h =>
  not_lrg_rzCut_100_120 h.2

/-- Claim C8 (amended): `isLRG_colors_south` returns `True` only if the
z-magnitude bound `zflux > 10^(0.4*(22.5-20.4))` and the r-z > 0.8
bound `zflux > 10^(0.4*0.8) * rflux` both hold; at the fluxes
`g = 0, r = 100, z = 120, w1 = 50, w2 = 10` the z-magnitude bound is
satisfied but the r-z bound is not, so `isLRG_colors_south` is `False`
there. -/
theorem isLRG_colors_south_cuts :
    (∀ gflux rflux zflux w1flux w2flux : ℝ, ∀ ggood primary : Prop,
      isLRG_colors_south gflux rflux zflux w1flux w2flux ggood primary →
        lrg_zmagCut zflux ∧ lrg_rzCut rflux zflux) ∧
    lrg_zmagCut 120 ∧ ¬ lrg_rzCut 100 120 ∧
    ¬ isLRG_colors_south 0 100 120 50 10 True True := by
  refine ⟨fun g r z w1 w2 gg pr h => ⟨h.2.1, h.2.2.2.2.1⟩,
    lrg_zmagCut_120, not_lrg_rzCut_100_120, fun h => ?_⟩
  exact not_lrg_rzCut_100_120 h.2.2.2.2.1

/-- Claim C8 witness: the "only if" direction applied to a concrete
flux vector on which `isLRG_colors_south` holds
(`g = 0, r = 10, z = 40, w1 = 100, w2 = 10`). -/
theorem isLRG_colors_south_cuts_witness :
    lrg_zmagCut 40 ∧ lrg_rzCut 10 40 :=
  isLRG_colors_south_cuts.1 0 10 40 100 10 True True lrg_example_holds

end Desitarget
